import Mathlib

/-!
Shallow embedding of the `beardon/arc-cre-api` client library.

The repository holds two near-duplicate implementations of the same CRE
(Course Record Entry) HTTP client:

* `src/lib/ArcCre.js` — embedded below in namespace `Lib`;
* `src/unnamed/part_000` — embedded below in namespace `Full` (it is the
  variant with `protocol`/`timeout` options, the `/course/recordentry/eapi`
  path prefix, and the 404-to-null special case).

The HTTP transport (axios) is external: it is modelled by an explicit
`AxiosOutcome` argument, and each request routine is embedded as a pure
function from the built request configuration and the transport outcome to
the value returned or thrown by the JavaScript code.
-/

/-- Wire-format column delimiter (`DELIMITER` in both source files). -/
def DELIMITER : String := "|"

/-- `RECORD_TYPES.INSTRUCTOR` in both source files. -/
def RECORD_TYPES.INSTRUCTOR : String := "B"

/-- `RECORD_TYPES.ORGANIZATION` in both source files. -/
def RECORD_TYPES.ORGANIZATION : String := "A"

/-- `RECORD_TYPES.STUDENT` in both source files. -/
def RECORD_TYPES.STUDENT : String := "C"

/-- One element of the `options` array passed to `createCRE`: a JS object
with a `type` discriminant and the per-variant fields the serializer reads.
Fields a given record kind does not use are simply never read. -/
structure RecordOption where
  type : String := ""
  organizationName : String := ""
  poAccountName : String := ""
  productSKU : String := ""
  startDate : String := ""
  endDate : String := ""
  numberOfStudents : String := ""
  facilityName : String := ""
  address : String := ""
  city : String := ""
  state : String := ""
  zipCode : String := ""
  instructorID : String := ""
  firstName : String := ""
  lastName : String := ""
  email : String := ""
  phoneNumber : String := ""
  mastery : String := ""
  notes : String := ""

/-- A JS header object, as an ordered key-value list. -/
abbrev Headers := List (String × String)

/-- Lodash `_.defaults(obj, sources)` restricted to one source object: keys
already present in `obj` keep their values, missing keys are added. The
caller of `_.defaults` in both variants ignores its return value, so this
models the in-place mutation of the first argument when it is an object. -/
def lodashDefaults (obj : Headers) (sources : Headers) : Headers :=
  sources.foldl (fun acc kv => if acc.any (fun p => p.1 == kv.1) then acc else acc ++ [kv]) obj

/-- Look a header up by name. -/
def headerValue (hs : Headers) (k : String) : Option String :=
  (hs.find? (fun p => p.1 == k)).map Prod.snd

/-- An upstream HTTP response as axios exposes it. -/
structure AxiosResponse where
  status : Nat
  statusText : String := ""
  data : String := ""

/-- An axios-thrown error: `e.response` is present exactly when the upstream
responded (with a non-2xx status); on a network failure or timeout it is
`none`. -/
structure AxiosError where
  message : String := ""
  response : Option AxiosResponse := none

/-- What the transport does with a dispatched request. -/
inductive AxiosOutcome where
  | success (r : AxiosResponse)
  | failure (e : AxiosError)

/-- The axios request configuration object built by the client. -/
structure AxiosConfig where
  method : String
  url : String := ""
  params : Headers := []
  data : Option String := none
  headers : Option Headers := none
  timeout : Option Nat := none

/-- JS truthiness filter for an optional number (`undefined` and `0` are
falsy in `a || b`). -/
def truthyNat (a : Option Nat) : Option Nat :=
  a.bind (fun v => if v = 0 then none else some v)

/-- JS truthiness filter for an optional string (`undefined` and `""` are
falsy in `a || b`). -/
def truthyStr (a : Option String) : Option String :=
  a.bind (fun s => if s = "" then none else some s)

/-- JS `if (endpoint.substring(0, 1) !== '/') endpoint = '/' + endpoint;`
as used by both variants' URL builders. -/
def ensureLeadingSlash (endpoint : String) : String :=
  if endpoint.take 1 ≠ "/" then "/" ++ endpoint else endpoint

namespace Lib

/-- Constructor options recognized by `src/lib/ArcCre.js`. -/
structure Options where
  apiVersion : Option Nat := none
  version : Option Nat := none
  clientId : String := ""
  clientSecret : String := ""
  debug : Bool := false
  host : Option String := none
  sourceSystem : String := ""

/-- Client state set by the `ArcCre` constructor in `src/lib/ArcCre.js`. -/
structure ArcCre where
  name : String
  apiVersion : Nat
  clientId : String
  clientSecret : String
  debug : Bool
  host : String
  sourceSystem : String

/-- The `ArcCre(options)` constructor of `src/lib/ArcCre.js`. -/
def mkArcCre (options : Options) : ArcCre :=
  { name := "arcCre"
  , apiVersion := ((truthyNat options.apiVersion).orElse (fun _ => truthyNat options.version)).getD 1
  , clientId := options.clientId
  , clientSecret := options.clientSecret
  , debug := options.debug
  , host := (truthyStr options.host).getD "arc-course-record-entry-sf-eapi-qa.us-e1.cloudhub.io"
  , sourceSystem := options.sourceSystem }

/-- `ArcCre.prototype._buildApiUrl` of `src/lib/ArcCre.js`. -/
def ArcCre._buildApiUrl (t : ArcCre) (endpoint : String) : String :=
  "https://" ++ t.host ++ "/v" ++ (toString t.apiVersion ++ ensureLeadingSlash endpoint)

/-- The `defaultHeaders` object built inside `_request`. -/
def ArcCre.defaultHeaders (t : ArcCre) : Headers :=
  [ ("client_id", t.clientId)
  , ("client_secret", t.clientSecret)
  , ("Content-Type", "text/plain")
  , ("source_system", t.sourceSystem) ]

/-- Effect of `_.defaults(config.headers, defaultHeaders)` on
`config.headers` in `src/lib/ArcCre.js`. Lodash coerces its first argument
with `Object(...)`: when `config.headers` is `null` or `undefined` the
defaults are written onto a fresh object, the function's return value is
discarded by the caller, and `config.headers` is left unchanged. Only a
caller-supplied headers object is mutated in place. -/
def ArcCre.mergedHeaders (t : ArcCre) (headers : Option Headers) : Option Headers :=
  match headers with
  | some hs => some (lodashDefaults hs t.defaultHeaders)
  | none => none

/-- The request configuration actually handed to `axios(config)` after the
header-defaulting line in `_request`. -/
def ArcCre.dispatchConfig (t : ArcCre) (config : AxiosConfig) : AxiosConfig :=
  { config with headers := t.mergedHeaders config.headers }

/-- Values thrown out of `_request` in `src/lib/ArcCre.js`. -/
inductive Thrown where
  /-- A transport error object rethrown unchanged (never produced by this
  variant: its catch block always builds something else). -/
  | axios (e : AxiosError)
  /-- The catch block's `new Error(...)` carrying `.code` and `.meta`. -/
  | wrapped (message : String) (code : Nat) (meta : String)
  /-- The TypeError raised by evaluating `e.response.status` when
  `e.response` is `undefined` (network failure or timeout). -/
  | typeError

/-- `ArcCre.prototype._request` of `src/lib/ArcCre.js`, as a function of the
transport outcome: on success it returns `response.data`; on any transport
error it evaluates `e.response.status`, which wraps the error when a
response is present and raises a TypeError when it is not. -/
def ArcCre._request (t : ArcCre) (config : AxiosConfig) (outcome : AxiosOutcome) :
    Except Thrown String :=
  match outcome with
  | .success r => .ok r.data
  | .failure e =>
    match e.response with
    | some r => .error (.wrapped (toString r.status ++ " - " ++ config.url ++ " failed") r.status r.data)
    | none => .error .typeError

/-- The axios options object built by `ArcCre.prototype._get`. -/
def ArcCre._getConfig (t : ArcCre) (endpoint : String) (params : Option Headers)
    (headers : Option Headers) : AxiosConfig :=
  { method := "get"
  , url := t._buildApiUrl endpoint
  , params := params.getD []
  , headers := headers }

/-- The axios options object built by `ArcCre.prototype._post`. -/
def ArcCre._postConfig (t : ArcCre) (endpoint : String) (params : Option Headers)
    (body : Option String) (headers : Option Headers) : AxiosConfig :=
  { method := "post"
  , url := t._buildApiUrl endpoint
  , params := params.getD []
  , data := body
  , headers := headers }

/-- The body of the `for (const option of options) switch (option.type)`
loop in `createCRE` of `src/lib/ArcCre.js`, for one record: the line pushed
onto `lines`, or `none` when the switch has no matching case. Note that the
source pushes `RECORD_TYPES.ORGANIZATION` as the fourth column in all three
cases, including the `INSTRUCTOR` and `STUDENT` cases. -/
def serializeRecord (organizationId : String) (batchId classId : Nat)
    (option : RecordOption) : Option String :=
  if option.type = RECORD_TYPES.ORGANIZATION then
    some (String.intercalate DELIMITER
      [ organizationId, toString batchId, toString classId, RECORD_TYPES.ORGANIZATION
      , option.organizationName, option.poAccountName, option.productSKU, option.startDate
      , option.endDate, option.numberOfStudents, option.facilityName, option.address
      , option.city, option.state, option.zipCode ])
  else if option.type = RECORD_TYPES.INSTRUCTOR then
    some (String.intercalate DELIMITER
      [ organizationId, toString batchId, toString classId, RECORD_TYPES.ORGANIZATION
      , option.instructorID, option.firstName, option.lastName, option.email ])
  else if option.type = RECORD_TYPES.STUDENT then
    some (String.intercalate DELIMITER
      [ organizationId, toString batchId, toString classId, RECORD_TYPES.ORGANIZATION
      , option.firstName, option.lastName, option.email, option.phoneNumber
      , option.mastery, option.notes ])
  else none

/-- The `lines` array accumulated by `createCRE` of `src/lib/ArcCre.js`. -/
def createCRELines (organizationId : String) (batchId classId : Nat)
    (options : List RecordOption) : List String :=
  options.filterMap (serializeRecord organizationId batchId classId)

/-- The request body `lines.join('\r\n')` of `createCRE` in
`src/lib/ArcCre.js`. -/
def createCREBody (organizationId : String) (batchId classId : Nat)
    (options : List RecordOption) : String :=
  String.intercalate "\r\n" (createCRELines organizationId batchId classId options)

/-- The axios options built by `createCRE` (it calls
`this._post('/cre', null, body, null)`). -/
def ArcCre.createCREConfig (t : ArcCre) (organizationId : String) (batchId classId : Nat)
    (options : List RecordOption) : AxiosConfig :=
  t._postConfig "/cre" none (some (createCREBody organizationId batchId classId options)) none

/-- The axios options built by `getCRE` (it calls `this._get('/cre/' + offeringId)`). -/
def ArcCre.getCREConfig (t : ArcCre) (offeringId : String) : AxiosConfig :=
  t._getConfig ("/cre/" ++ offeringId) none none

/-- The axios options built by `ping` (it calls `this._get('/ping')`). -/
def ArcCre.pingConfig (t : ArcCre) : AxiosConfig :=
  t._getConfig "/ping" none none

end Lib

namespace Full

/-- Constructor options recognized by the `src/unnamed/part_000` variant. -/
structure Options where
  apiVersion : Option Nat := none
  version : Option Nat := none
  host : Option String := none
  clientId : String := ""
  clientSecret : String := ""
  sourceSystem : String := ""
  logLevel : Option String := none
  protocol : Option String := none
  timeout : Option Nat := none

/-- Client state set by the `ArcCre` constructor in `src/unnamed/part_000`.
The `logger`/`loggerConfig` fields only feed `_writeLog`, which performs
logging side effects and never changes a request's result, so they are left
out of the embedding. -/
structure ArcCre where
  name : String
  apiVersion : Nat
  host : String
  clientId : String
  clientSecret : String
  sourceSystem : String
  logLevel : String
  protocol : String
  timeout : Nat

/-- The `ArcCre(options, logger)` constructor of `src/unnamed/part_000`. -/
def mkArcCre (options : Options) : ArcCre :=
  { name := "arc-cre"
  , apiVersion := ((truthyNat options.apiVersion).orElse (fun _ => truthyNat options.version)).getD 1
  , host := (truthyStr options.host).getD "arc-course-record-entry-sf-eapi-qa.us-e1.cloudhub.io"
  , clientId := options.clientId
  , clientSecret := options.clientSecret
  , sourceSystem := options.sourceSystem
  , logLevel := (truthyStr options.logLevel).getD "verbose"
  , protocol := (truthyStr options.protocol).getD "https"
  , timeout := (truthyNat options.timeout).getD (1000 * 60 * 3) }

/-- `ArcCre.prototype._buildScheme` of `src/unnamed/part_000`. -/
def ArcCre._buildScheme (t : ArcCre) : String :=
  t.protocol ++ "://" ++ t.host

/-- `ArcCre.prototype._buildPath` of `src/unnamed/part_000`. -/
def ArcCre._buildPath (t : ArcCre) (endpoint : String) : String :=
  "/course/recordentry/eapi/v" ++ (toString t.apiVersion ++ ensureLeadingSlash endpoint)

/-- `ArcCre.prototype._buildApiUrl` of `src/unnamed/part_000`. -/
def ArcCre._buildApiUrl (t : ArcCre) (endpoint : String) : String :=
  t._buildScheme ++ t._buildPath endpoint

/-- The `defaultHeaders` object built inside `_request` of
`src/unnamed/part_000`. -/
def ArcCre.defaultHeaders (t : ArcCre) : Headers :=
  [ ("client_id", t.clientId)
  , ("client_secret", t.clientSecret)
  , ("Content-Type", "text/plain")
  , ("source_system", t.sourceSystem) ]

/-- Headers dispatched by `_request` of `src/unnamed/part_000`: it first runs
`config.headers = config.headers || { };`, so `_.defaults` always mutates the
dispatched object in place. -/
def ArcCre.mergedHeaders (t : ArcCre) (headers : Option Headers) : Headers :=
  lodashDefaults (headers.getD []) t.defaultHeaders

/-- The configuration handed to the axios instance by `_request` of
`src/unnamed/part_000`: URL from the endpoint, headers defaulted in place,
timeout applied when the configured value is truthy. -/
def ArcCre.dispatchConfig (t : ArcCre) (endpoint : String) (config : AxiosConfig) : AxiosConfig :=
  { config with
      url := t._buildApiUrl endpoint
    , headers := some (t.mergedHeaders config.headers)
    , timeout := if t.timeout ≠ 0 then some t.timeout else config.timeout }

/-- `ArcCre.prototype._request` of `src/unnamed/part_000` as a function of
the transport outcome: success returns `response.data`; a transport error
with an upstream response returns `null` when the status is 404 and is
otherwise rethrown unchanged; a transport error without a response is
rethrown unchanged. (`_writeLog` calls are logging side effects and do not
affect the result.) `Except.ok none` models a `null` return. -/
def ArcCre._request (t : ArcCre) (endpoint : String) (config : AxiosConfig)
    (outcome : AxiosOutcome) : Except AxiosError (Option String) :=
  match outcome with
  | .success r => .ok (some r.data)
  | .failure e =>
    match e.response with
    | some r => if r.status = 404 then .ok none else .error e
    | none => .error e

/-- `ArcCre.prototype.get` of `src/unnamed/part_000`. -/
def ArcCre.get (t : ArcCre) (endpoint : String) (params : Option Headers)
    (headers : Option Headers) (outcome : AxiosOutcome) : Except AxiosError (Option String) :=
  t._request endpoint { method := "GET", params := params.getD [], headers := headers } outcome

/-- `ArcCre.prototype.post` of `src/unnamed/part_000`. -/
def ArcCre.post (t : ArcCre) (endpoint : String) (params : Option Headers)
    (data : Option String) (headers : Option Headers) (outcome : AxiosOutcome) :
    Except AxiosError (Option String) :=
  t._request endpoint { method := "POST", params := params.getD [], data := data, headers := headers } outcome

/-- The loop body of `createCRE` in `src/unnamed/part_000` for one record:
this variant writes the record's own discriminant as the fourth column, and
its Organization layout repeats `organizationId` and inserts
`this.sourceSystem` before `poAccountName`. -/
def ArcCre.serializeRecord (t : ArcCre) (organizationId : String) (batchId classId : Nat)
    (option : RecordOption) : Option String :=
  if option.type = RECORD_TYPES.ORGANIZATION then
    some (String.intercalate DELIMITER
      [ organizationId, toString batchId, toString classId, RECORD_TYPES.ORGANIZATION
      , organizationId, t.sourceSystem, option.poAccountName, option.productSKU
      , option.startDate, option.endDate, option.numberOfStudents, option.facilityName
      , option.address, option.city, option.state, option.zipCode ])
  else if option.type = RECORD_TYPES.INSTRUCTOR then
    some (String.intercalate DELIMITER
      [ organizationId, toString batchId, toString classId, RECORD_TYPES.INSTRUCTOR
      , option.instructorID, option.firstName, option.lastName, option.email ])
  else if option.type = RECORD_TYPES.STUDENT then
    some (String.intercalate DELIMITER
      [ organizationId, toString batchId, toString classId, RECORD_TYPES.STUDENT
      , option.firstName, option.lastName, option.email, option.phoneNumber
      , option.mastery, option.notes ])
  else none

/-- The `lines` array accumulated by `createCRE` of `src/unnamed/part_000`. -/
def ArcCre.createCRELines (t : ArcCre) (organizationId : String) (batchId classId : Nat)
    (options : List RecordOption) : List String :=
  options.filterMap (t.serializeRecord organizationId batchId classId)

/-- The request body `lines.join('\n')` of `createCRE` in
`src/unnamed/part_000`. -/
def ArcCre.createCREBody (t : ArcCre) (organizationId : String) (batchId classId : Nat)
    (options : List RecordOption) : String :=
  String.intercalate "\n" (t.createCRELines organizationId batchId classId options)

/-- `ArcCre.prototype.createCRE` of `src/unnamed/part_000` as a function of
the transport outcome (it posts the serialized body to `/cre`). -/
def ArcCre.createCRE (t : ArcCre) (organizationId : String) (batchId classId : Nat)
    (options : List RecordOption) (outcome : AxiosOutcome) : Except AxiosError (Option String) :=
  t.post "/cre" none (some (t.createCREBody organizationId batchId classId options)) none outcome

/-- `ArcCre.prototype.getCRE` of `src/unnamed/part_000` as a function of the
transport outcome. -/
def ArcCre.getCRE (t : ArcCre) (offeringId : String) (outcome : AxiosOutcome) :
    Except AxiosError (Option String) :=
  t.get ("/cre/" ++ offeringId) none none outcome

/-- `ArcCre.prototype.ping` of `src/unnamed/part_000` as a function of the
transport outcome. -/
def ArcCre.ping (t : ArcCre) (outcome : AxiosOutcome) : Except AxiosError (Option String) :=
  t.get "/ping" none none outcome

end Full

/-- A record's discriminant is one the `switch` in either `createCRE`
recognizes. -/
def recognizedType (t : String) : Bool :=
  t == RECORD_TYPES.ORGANIZATION || t == RECORD_TYPES.INSTRUCTOR || t == RECORD_TYPES.STUDENT

/-! ## Fixtures -/

/-- A `part_000`-variant client built from concrete credentials, with every
defaultable option omitted. -/
def fixtureClient : Full.ArcCre :=
  Full.mkArcCre { clientId := "cid", clientSecret := "sec", sourceSystem := "SRC" }

/-- A concrete Organization record (`type: 'A'`). -/
def orgFixture : RecordOption :=
  { type := "A", organizationName := "Acme", poAccountName := "PO", productSKU := "SKU"
  , startDate := "2020-01-01", endDate := "2020-02-01", numberOfStudents := "25"
  , facilityName := "Fac", address := "1 Main St", city := "Springfield", state := "IL"
  , zipCode := "62701" }

/-- A concrete Instructor record (`type: 'B'`). -/
def instructorFixture : RecordOption :=
  { type := "B", instructorID := "I-1", firstName := "Jane", lastName := "Roe"
  , email := "jane@example.com" }

/-- A concrete Student record (`type: 'C'`). -/
def studentFixture : RecordOption :=
  { type := "C", firstName := "Sam", lastName := "Lee", email := "sam@example.com"
  , phoneNumber := "555-0100", mastery := "PASS", notes := "ok" }

/-- A concrete record whose discriminant no `switch` case matches. -/
def unknownFixture : RecordOption :=
  { type := "Z", firstName := "Sam" }

/-! ## Helper lemmas -/

/-- `Lib.serializeRecord` emits a line exactly for the recognized
discriminants. -/
theorem lib_serializeRecord_isSome (org : String) (b c : Nat) (o : RecordOption) :
    (Lib.serializeRecord org b c o).isSome = recognizedType o.type := by
  unfold Lib.serializeRecord recognizedType RECORD_TYPES.ORGANIZATION RECORD_TYPES.INSTRUCTOR RECORD_TYPES.STUDENT
  split_ifs <;> simp [*]

/-- `Full.ArcCre.serializeRecord` emits a line exactly for the recognized
discriminants. -/
theorem full_serializeRecord_isSome (t : Full.ArcCre) (org : String) (b c : Nat) (o : RecordOption) :
    (t.serializeRecord org b c o).isSome = recognizedType o.type := by
  unfold Full.ArcCre.serializeRecord recognizedType RECORD_TYPES.ORGANIZATION RECORD_TYPES.INSTRUCTOR RECORD_TYPES.STUDENT
  split_ifs <;> simp [*]

/-- A `filterMap` whose function is `some`-valued exactly on records with
recognized discriminants keeps exactly one element per recognized record. -/
theorem length_filterMap_of_isSome_eq (f : RecordOption → Option String)
    (hf : ∀ o, (f o).isSome = recognizedType o.type) (options : List RecordOption) :
    (options.filterMap f).length = (options.filter (fun o => recognizedType o.type)).length := by
  induction options with
  | nil => rfl
  | cons o rest ih =>
    rw [List.filterMap_cons, List.filter_cons]
    cases hfo : f o with
    | none =>
      have hrec : recognizedType o.type = false := by rw [← hf o, hfo]; rfl
      simp [hrec, ih]
    | some s =>
      have hrec : recognizedType o.type = true := by rw [← hf o, hfo]; rfl
      simp [hrec, ih]

/-! ## Claim theorems -/

/-- C1: counterexample evaluation. In `src/lib/ArcCre.js` the serializer's
fourth column is `RECORD_TYPES.ORGANIZATION` in all three `switch` cases, so
the line it emits for the Instructor fixture (whose discriminant is `'B'`)
carries `'A'` as its record-type column — the claimed invariant fails on
this variant (the `src/unnamed/part_000` variant writes the record's own
discriminant). -/
theorem lib_instructor_line_carries_wrong_type_code :
    Lib.serializeRecord "ORG" 2 3 instructorFixture
      = some (String.intercalate DELIMITER
          [ "ORG", "2", "3", RECORD_TYPES.ORGANIZATION, "I-1", "Jane", "Roe", "jane@example.com" ])
    ∧ instructorFixture.type = RECORD_TYPES.INSTRUCTOR
    ∧ RECORD_TYPES.ORGANIZATION ≠ RECORD_TYPES.INSTRUCTOR :=
  ⟨rfl, rfl, by decide⟩

/-- C2: for a batch of one Organization, one Instructor, and one Student
record with known field values, `createCRE` of `src/unnamed/part_000`
serializes exactly the expected `|`-delimited, `\n`-joined body,
byte for byte. -/
theorem createCRE_fixture_body_exact :
    Full.ArcCre.createCREBody fixtureClient "ORG" 2 3 [orgFixture, instructorFixture, studentFixture]
      = "ORG|2|3|A|ORG|SRC|PO|SKU|2020-01-01|2020-02-01|25|Fac|1 Main St|Springfield|IL|62701\nORG|2|3|B|I-1|Jane|Roe|jane@example.com\nORG|2|3|C|Sam|Lee|sam@example.com|555-0100|PASS|ok" :=
  rfl

/-- C3: counterexample evaluation. In `src/lib/ArcCre.js` each of the three
public operations passes a `null`/`undefined` headers object, and because
the return value of `_.defaults(config.headers, defaultHeaders)` is
discarded, the dispatched request carries no headers object at all — in
particular none of the four default headers is present, contrary to the
claim (and to this `_request`'s own doc comment). -/
theorem lib_public_requests_carry_no_default_headers (t : Lib.ArcCre) (org offeringId : String)
    (b c : Nat) (options : List RecordOption) :
    (t.dispatchConfig t.pingConfig).headers = none
    ∧ (t.dispatchConfig (t.getCREConfig offeringId)).headers = none
    ∧ (t.dispatchConfig (t.createCREConfig org b c options)).headers = none :=
  ⟨rfl, rfl, rfl⟩

/-- C4: counterexample evaluation. In `src/lib/ArcCre.js`, a transport
failure that carries no upstream response makes the catch block evaluate
`e.response.status`, which raises a TypeError — a secondary error — instead
of propagating the original error unchanged. -/
theorem lib_responseless_failure_raises_type_error (t : Lib.ArcCre) (config : AxiosConfig)
    (msg : String) :
    Lib.ArcCre._request t config (.failure { message := msg }) = .error .typeError
    ∧ Lib.ArcCre._request t config (.failure { message := msg })
        ≠ .error (.axios { message := msg }) := by
  refine ⟨rfl, fun h => ?_⟩
  simp [Lib.ArcCre._request] at h

/-- C5: in `src/lib/ArcCre.js` (the variant whose catch block constructs
the error), a transport failure carrying an upstream response is surfaced as
an error whose `code` is the upstream status, whose `meta` is the upstream
response body, and whose message contains the failing URL. -/
theorem upstream_http_error_carries_status_body_url (t : Lib.ArcCre) (config : AxiosConfig)
    (msg : String) (r : AxiosResponse) :
    ∃ message pre post,
      Lib.ArcCre._request t config (.failure { message := msg, response := some r })
        = .error (.wrapped message r.status r.data)
      ∧ message = pre ++ config.url ++ post :=
  ⟨_, toString r.status ++ " - ", " failed", rfl, rfl⟩

/-- C6: in `src/unnamed/part_000`, `getCRE` returns `null` (modelled as
`Except.ok none`) when the upstream responds with HTTP 404, rather than
throwing. -/
theorem getCRE_404_returns_null (t : Full.ArcCre) (offeringId msg stext bodyStr : String) :
    t.getCRE offeringId
        (.failure { message := msg
                  , response := some { status := 404, statusText := stext, data := bodyStr } })
      = .ok none :=
  rfl

/-- C7: in both variants, `createCRE` emits exactly one line per record
whose discriminant is recognized, and a record with an unrecognized
discriminant contributes no line (the serializer is total, so no error is
raised either). -/
theorem unrecognized_records_silently_skipped (t : Full.ArcCre) (org : String) (b c : Nat)
    (options : List RecordOption) :
    (Lib.createCRELines org b c options).length
        = (options.filter (fun o => recognizedType o.type)).length
    ∧ (t.createCRELines org b c options).length
        = (options.filter (fun o => recognizedType o.type)).length
    ∧ ∀ o : RecordOption, recognizedType o.type = false →
        Lib.serializeRecord org b c o = none ∧ t.serializeRecord org b c o = none := by
  refine ⟨?_, ?_, ?_⟩
  · exact length_filterMap_of_isSome_eq _ (lib_serializeRecord_isSome org b c) options
  · exact length_filterMap_of_isSome_eq _ (full_serializeRecord_isSome t org b c) options
  · intro o ho
    constructor
    · have h := lib_serializeRecord_isSome org b c o
      rw [ho] at h
      cases hfo : Lib.serializeRecord org b c o with
      | none => rfl
      | some s => rw [hfo] at h; simp at h
    · have h := full_serializeRecord_isSome t org b c o
      rw [ho] at h
      cases hfo : t.serializeRecord org b c o with
      | none => rfl
      | some s => rw [hfo] at h; simp at h

/-- C7 witness: at the concrete unknown-discriminant fixture (`type: 'Z'`)
the skip clause applies — neither variant's serializer emits a line. -/
theorem unrecognized_records_silently_skipped_witness :
    Lib.serializeRecord "ORG" 2 3 unknownFixture = none
    ∧ Full.ArcCre.serializeRecord fixtureClient "ORG" 2 3 unknownFixture = none :=
  (unrecognized_records_silently_skipped fixtureClient "ORG" 2 3 []).2.2 unknownFixture rfl

/-- C8: both URL builders normalize the leading path separator
idempotently: for every client configuration, the endpoint `"cre"` and the
endpoint `"/cre"` produce the identical URL string. -/
theorem buildApiUrl_leading_slash_idempotent (tl : Lib.ArcCre) (tf : Full.ArcCre) :
    tl._buildApiUrl "cre" = tl._buildApiUrl "/cre"
    ∧ tf._buildApiUrl "cre" = tf._buildApiUrl "/cre" :=
  ⟨rfl, rfl⟩

/-- C9: for the `src/unnamed/part_000` constructor, omitting `apiVersion`
(and its `version` alias) makes every built URL embed version 1, and
omitting `protocol` makes every built URL begin with the `https` scheme. -/
theorem omitted_options_default_to_v1_https (o : Full.Options) (endpoint : String)
    (hv : o.apiVersion = none) (hw : o.version = none) (hp : o.protocol = none) :
    (Full.mkArcCre o).apiVersion = 1
    ∧ (Full.mkArcCre o).protocol = "https"
    ∧ (Full.mkArcCre o)._buildApiUrl endpoint
        = "https://" ++ ((Full.mkArcCre o).host
            ++ ("/course/recordentry/eapi/v1" ++ ensureLeadingSlash endpoint)) := by
  have h1 : (Full.mkArcCre o).apiVersion = 1 := by
    simp [Full.mkArcCre, hv, hw, truthyNat]
  have h2 : (Full.mkArcCre o).protocol = "https" := by
    simp [Full.mkArcCre, hp, truthyStr]
  refine ⟨h1, h2, ?_⟩
  unfold Full.ArcCre._buildApiUrl Full.ArcCre._buildScheme Full.ArcCre._buildPath
  rw [h1, h2]
  have hlit1 : ("https" : String) ++ "://" = "https://" := rfl
  have hlit2 : ("/course/recordentry/eapi/v" : String) ++ "1" = "/course/recordentry/eapi/v1" := rfl
  have hts : toString (1 : Nat) = "1" := rfl
  rw [hts, hlit1, ← String.append_assoc "/course/recordentry/eapi/v" "1" (ensureLeadingSlash endpoint), hlit2, String.append_assoc]

/-- C9 witness: a client built with every option omitted, at the endpoint
`"cre"`. -/
theorem omitted_options_default_to_v1_https_witness :
    (Full.mkArcCre { }).apiVersion = 1
    ∧ (Full.mkArcCre { }).protocol = "https"
    ∧ (Full.mkArcCre { })._buildApiUrl "cre"
        = "https://" ++ ((Full.mkArcCre { }).host
            ++ ("/course/recordentry/eapi/v1" ++ ensureLeadingSlash "cre")) :=
  omitted_options_default_to_v1_https { } "cre" rfl rfl rfl

/-- C10: in `src/unnamed/part_000` the 404-to-null conversion lives in the
shared `_request` routine, so `createCRE`, `ping`, and `getCRE` all return
`null` (modelled as `Except.ok none`) when the upstream responds 404. -/
theorem all_operations_return_null_on_404 (t : Full.ArcCre) (offeringId org msg stext bodyStr : String)
    (b c : Nat) (options : List RecordOption) :
    t.createCRE org b c options
        (.failure { message := msg
                  , response := some { status := 404, statusText := stext, data := bodyStr } })
      = .ok none
    ∧ t.ping
        (.failure { message := msg
                  , response := some { status := 404, statusText := stext, data := bodyStr } })
      = .ok none
    ∧ t.getCRE offeringId
        (.failure { message := msg
                  , response := some { status := 404, statusText := stext, data := bodyStr } })
      = .ok none :=
  ⟨rfl, rfl, rfl⟩
